import Mathlib

/-!
# Verification of `test-agent.py`

A shallow embedding of the five tool functions registered by the agent
script (`hello_world`, `get_system_info`, `calculate`, `echo_message`,
`greet`) together with proofs of the specified properties.

Python strings are modelled as `List Char`.  The external
general-purpose expression evaluator (Python's `eval`) is external to
the repository; `calculate` is therefore parameterised by the
evaluator, and a concrete executable instance `pyEval` is supplied,
modelled from the spec, for evaluating concrete inputs.
-/

set_option autoImplicit false

namespace TestAgent

/-- A Python string: a finite sequence of characters. -/
abbrev PyStr := List Char

/-- `leadsWith pat l` is true when `pat` occurs at the very start of `l`
(the prefix test used by `str.replace` at each scan position). -/
def leadsWith : List Char → List Char → Bool
  | [], _ => true
  | _ :: _, [] => false
  | p :: ps, c :: cs => p == c && leadsWith ps cs

/-- Worker for `pyReplace`.  Scans the subject left to right; the `Nat`
argument counts characters still to be skipped because they belong to an
occurrence that has already been replaced (so occurrences never
overlap, as in Python's `str.replace`). -/
def pyReplaceAux (pat rep : List Char) : Nat → List Char → List Char
  | _, [] => []
  | Nat.succ k, _ :: rest => pyReplaceAux pat rep k rest
  | 0, c :: rest =>
    if leadsWith pat (c :: rest) && !pat.isEmpty then
      rep ++ pyReplaceAux pat rep (pat.length - 1) rest
    else
      c :: pyReplaceAux pat rep 0 rest

/-- Python's `subject.replace(pat, rep)` for a non-empty `pat`:
replace every non-overlapping occurrence, scanning left to right. -/
def pyReplace (pat rep subject : List Char) : List Char :=
  pyReplaceAux pat rep 0 subject

/-- The character whitelist of `calculate`
(`set('0123456789+-*/()., ')` in the source). -/
def allowed_chars : List Char := "0123456789+-*/()., ".data

/-- `c in allowed_chars` as a Boolean predicate. -/
def chAllowed (c : Char) : Bool := allowed_chars.contains c

/-- The `hello_world` tool: takes no arguments, returns a fixed string. -/
def hello_world (_ : Unit) : PyStr :=
  "Hello! This is a test message from your Google ADK agent. The setup is working correctly!".data

/-- The `greet` tool: takes no arguments, returns a fixed string. -/
def greet (_ : Unit) : PyStr :=
  "Hello! I'm a test agent. How can I help you today?".data

/-- The `echo_message` tool: returns `f"Echo: {message}"`. -/
def echo_message (message : PyStr) : PyStr :=
  "Echo: ".data ++ message

/-- The `calculate` tool, parameterised by the external general-purpose
expression evaluator `ev` (Python's `eval` followed by the f-string
rendering of the resulting object; `Except.error` carries `str(e)` for
an exception `e`).  Faithful to the source: first the
`false`/`true` literal replacements, then the character-whitelist
check on the replaced string, then evaluation; the formatted strings
use the replaced string, which is the binding of `expression` at that
point in the Python code. -/
def calculateWith (ev : PyStr → Except PyStr PyStr) (expression : PyStr) : PyStr :=
  let expression2 :=
    pyReplace "true".data "True".data (pyReplace "false".data "False".data expression)
  if expression2.all chAllowed then
    match ev expression2 with
    | Except.ok result =>
        "Result: ".data ++ expression2 ++ " = ".data ++ result
    | Except.error e =>
        "Error calculating '".data ++ expression2 ++ "': ".data ++ e
  else
    "Error: Only basic math operations are allowed".data

/-- Variant of `calculate` with the `false`/`true` replacement step
removed; used to show the replacement never changes the result. -/
def calculateNoReplaceWith (ev : PyStr → Except PyStr PyStr) (expression : PyStr) : PyStr :=
  if expression.all chAllowed then
    match ev expression with
    | Except.ok result =>
        "Result: ".data ++ expression ++ " = ".data ++ result
    | Except.error e =>
        "Error calculating '".data ++ expression ++ "': ".data ++ e
  else
    "Error: Only basic math operations are allowed".data

/-! ## A concrete evaluator instance

Python's `eval` is not code of this repository; the definitions below
are modelled from the spec ("evaluates the expression using a
general-purpose expression evaluator"). -/

/-- A token of an arithmetic expression. -/
inductive Tok where
  | num : Nat → Tok
  | op : Char → Tok
deriving DecidableEq, Repr

/-- Numeric value of a decimal digit character. -/
def digitVal (c : Char) : Nat := c.toNat - 48

/-- Worker for `tokenize`: `acc` holds a digit run in progress. -/
def tokenizeAux : List Char → Option Nat → Except PyStr (List Tok)
  | [], none => Except.ok []
  | [], some n => Except.ok [Tok.num n]
  | c :: rest, acc =>
    if c.isDigit then
      tokenizeAux rest (some ((acc.getD 0) * 10 + digitVal c))
    else
      let cont := fun (ts : List Tok) =>
        match acc with
        | none => ts
        | some n => Tok.num n :: ts
      if c = ' ' then
        match tokenizeAux rest none with
        | Except.ok ts => Except.ok (cont ts)
        | Except.error e => Except.error e
      else if c = '+' || c = '-' || c = '*' || c = '(' || c = ')' then
        match tokenizeAux rest none with
        | Except.ok ts => Except.ok (cont (Tok.op c :: ts))
        | Except.error e => Except.error e
      else
        Except.error "invalid syntax".data

/-- Tokenizer for the modelled evaluator. -/
def tokenize (s : List Char) : Except PyStr (List Tok) :=
  tokenizeAux s none

mutual

/-- Parse an atom: a literal, a parenthesised expression, or a unary
sign applied to an atom. -/
def parseAtom : Nat → List Tok → Except PyStr (Int × List Tok)
  | 0, _ => Except.error "invalid syntax".data
  | fuel + 1, ts =>
    match ts with
    | Tok.num n :: rest => Except.ok (Int.ofNat n, rest)
    | Tok.op '(' :: rest =>
      match parseAdd fuel rest with
      | Except.ok (v, Tok.op ')' :: rest2) => Except.ok (v, rest2)
      | Except.ok (_, _) => Except.error "invalid syntax".data
      | Except.error e => Except.error e
    | Tok.op '-' :: rest =>
      match parseAtom fuel rest with
      | Except.ok (v, rest2) => Except.ok (-v, rest2)
      | Except.error e => Except.error e
    | Tok.op '+' :: rest => parseAtom fuel rest
    | _ => Except.error "invalid syntax".data

/-- Left-associated chain of multiplications. -/
def parseMulLoop : Nat → Int → List Tok → Except PyStr (Int × List Tok)
  | 0, _, _ => Except.error "invalid syntax".data
  | fuel + 1, acc, Tok.op '*' :: rest =>
    match parseAtom fuel rest with
    | Except.ok (v, rest2) => parseMulLoop fuel (acc * v) rest2
    | Except.error e => Except.error e
  | _ + 1, acc, ts => Except.ok (acc, ts)

/-- Parse a product of atoms. -/
def parseMul : Nat → List Tok → Except PyStr (Int × List Tok)
  | 0, _ => Except.error "invalid syntax".data
  | fuel + 1, ts =>
    match parseAtom fuel ts with
    | Except.ok (v, rest) => parseMulLoop fuel v rest
    | Except.error e => Except.error e

/-- Left-associated chain of additions and subtractions. -/
def parseAddLoop : Nat → Int → List Tok → Except PyStr (Int × List Tok)
  | 0, _, _ => Except.error "invalid syntax".data
  | fuel + 1, acc, Tok.op '+' :: rest =>
    match parseMul fuel rest with
    | Except.ok (v, rest2) => parseAddLoop fuel (acc + v) rest2
    | Except.error e => Except.error e
  | fuel + 1, acc, Tok.op '-' :: rest =>
    match parseMul fuel rest with
    | Except.ok (v, rest2) => parseAddLoop fuel (acc - v) rest2
    | Except.error e => Except.error e
  | _ + 1, acc, ts => Except.ok (acc, ts)

/-- Parse a sum of products. -/
def parseAdd : Nat → List Tok → Except PyStr (Int × List Tok)
  | 0, _ => Except.error "invalid syntax".data
  | fuel + 1, ts =>
    match parseMul fuel ts with
    | Except.ok (v, rest) => parseAddLoop fuel v rest
    | Except.error e => Except.error e

end

/-- Modelled from the spec: the external "general-purpose expression
evaluator" (Python's `eval`, whose code is not in this repository),
restricted to integer arithmetic with `+`, `-`, `*`, unary signs and
parentheses.  Whitelisted constructs outside this fragment (true
division, decimal points, tuples) are reported as errors by the model;
on success the result is already rendered as Python's `str` would
render an `int`. -/
def pyEval (s : List Char) : Except PyStr PyStr :=
  match tokenize s with
  | Except.error e => Except.error e
  | Except.ok ts =>
    match parseAdd (2 * ts.length + 2) ts with
    | Except.ok (v, []) => Except.ok (toString v).data
    | Except.ok (_, _ :: _) => Except.error "invalid syntax".data
    | Except.error e => Except.error e

/-- The `calculate` tool as registered: `calculateWith` applied to the
modelled evaluator. -/
def calculate : PyStr → PyStr := calculateWith pyEval

/-! ## `get_system_info` -/

/-- A Python value as returned inside the system-info dictionary:
either a string or the pair returned by `platform.architecture()`. -/
inductive PyVal where
  | str : PyStr → PyVal
  | pair : PyStr → PyStr → PyVal
deriving DecidableEq, Repr

/-- The host environment read by `get_system_info`: `sys.version`,
`platform.platform()`, `platform.architecture()` and
`platform.processor()` are values of the host, not of this program. -/
structure HostEnv where
  python_version : PyStr
  host_platform : PyStr
  arch_bits : PyStr
  arch_linkage : PyStr
  processor : PyStr

/-- The `get_system_info` tool: returns the dictionary literal of the
source, with the environment-read values taken from `env`. -/
def get_system_info (env : HostEnv) : List (PyStr × PyVal) :=
  [("python_version".data, PyVal.str env.python_version),
   ("platform".data, PyVal.str env.host_platform),
   ("architecture".data, PyVal.pair env.arch_bits env.arch_linkage),
   ("processor".data, PyVal.str env.processor),
   ("agent_status".data, PyVal.str "running".data)]

/-! ## The tool-registration view

Each registered tool returns either a string or a simple mapping. -/

/-- The value a registered tool hands back to the framework. -/
inductive ToolResult where
  | rstr : PyStr → ToolResult
  | rmap : List (PyStr × PyVal) → ToolResult
deriving DecidableEq, Repr

/-- Whether a tool result is a string. -/
def ToolResult.isStr : ToolResult → Bool
  | ToolResult.rstr _ => true
  | ToolResult.rmap _ => false

/-- Whether a tool result is a mapping. -/
def ToolResult.isMap : ToolResult → Bool
  | ToolResult.rstr _ => false
  | ToolResult.rmap _ => true

/-- The shared mutable state a tool body could read or write: the
module's global namespace.  None of the five tool bodies assigns to a
global or nonlocal name, so each step function below, translated from
the corresponding source body, passes the store through untouched. -/
def Store := List (PyStr × PyVal)

/-- One invocation of `hello_world`, threading the shared store. -/
def helloWorldStep (s : Store) (_ : Unit) : ToolResult × Store :=
  (ToolResult.rstr (hello_world ()), s)

/-- One invocation of `get_system_info`, threading the shared store. -/
def getSystemInfoStep (env : HostEnv) (s : Store) (_ : Unit) : ToolResult × Store :=
  (ToolResult.rmap (get_system_info env), s)

/-- One invocation of `calculate`, threading the shared store. -/
def calculateStep (ev : PyStr → Except PyStr PyStr) (s : Store) (expression : PyStr) :
    ToolResult × Store :=
  (ToolResult.rstr (calculateWith ev expression), s)

/-- One invocation of `echo_message`, threading the shared store. -/
def echoMessageStep (s : Store) (message : PyStr) : ToolResult × Store :=
  (ToolResult.rstr (echo_message message), s)

/-- One invocation of `greet`, threading the shared store. -/
def greetStep (s : Store) (_ : Unit) : ToolResult × Store :=
  (ToolResult.rstr (greet ()), s)

/-! ## Lemmas about the replacement step -/

/-- A pattern whose first character differs from the head of the
subject does not occur at the start of the subject. -/
theorem leadsWith_cons_of_ne {p c : Char} (ps cs : List Char) (h : p ≠ c) :
    leadsWith (p :: ps) (c :: cs) = false := by
  have hb : (p == c) = false := beq_eq_false_iff_ne.mpr h
  simp [leadsWith, hb]

/-- If the pattern's first character never occurs in the subject, the
replacement is the identity. -/
theorem pyReplaceAux_id (p : Char) (ps rep : List Char) :
    ∀ l : List Char, p ∉ l → pyReplaceAux (p :: ps) rep 0 l = l := by
  intro l
  induction l with
  | nil => intro _; rfl
  | cons c rest ih =>
    intro h
    have h1 : p ≠ c := by
      intro hpc
      exact h (by rw [hpc]; exact List.mem_cons_self c rest)
    have h2 : p ∉ rest := fun hm => h (List.mem_cons_of_mem c hm)
    have hlw := leadsWith_cons_of_ne (p := p) (c := c) ps rest h1
    simp [pyReplaceAux, hlw, ih h2]

/-- If the replacement text contains a non-whitelisted character, then
replacing occurrences in a subject that already fails the whitelist
yields a string that still fails the whitelist. -/
theorem pyReplaceAux_all_false (pat rep : List Char) (hrep : rep.all chAllowed = false) :
    ∀ l : List Char, l.all chAllowed = false →
      (pyReplaceAux pat rep 0 l).all chAllowed = false := by
  intro l
  induction l with
  | nil => intro h; simp at h
  | cons c rest ih =>
    intro h
    cases hb : (leadsWith pat (c :: rest) && !pat.isEmpty) with
    | true => simp [pyReplaceAux, hb, List.all_append, hrep]
    | false =>
      rw [List.all_cons] at h
      cases hca : chAllowed c with
      | false => simp [pyReplaceAux, hb, List.all_cons, hca]
      | true =>
        rw [hca, Bool.true_and] at h
        simp [pyReplaceAux, hb, List.all_cons, hca, ih h]

/-- On a whitelist-passing string (hence one containing no letters) the
two literal replacements of `calculate` are the identity. -/
theorem replaced_eq_self (e : PyStr) (h : e.all chAllowed = true) :
    pyReplace "true".data "True".data (pyReplace "false".data "False".data e) = e := by
  have hf : 'f' ∉ e := by
    intro hm
    have hfa := List.all_eq_true.mp h _ hm
    simp [chAllowed, allowed_chars] at hfa
  have ht : 't' ∉ e := by
    intro hm
    have hta := List.all_eq_true.mp h _ hm
    simp [chAllowed, allowed_chars] at hta
  have e1 : pyReplace "false".data "False".data e = e := by
    show pyReplaceAux ('f' :: "alse".data) "False".data 0 e = e
    exact pyReplaceAux_id 'f' "alse".data "False".data e hf
  rw [e1]
  show pyReplaceAux ('t' :: "rue".data) "True".data 0 e = e
  exact pyReplaceAux_id 't' "rue".data "True".data e ht

/-- On a string failing the whitelist, the string after the two
replacements still fails the whitelist (the replacement texts contain
letters, which are never whitelisted). -/
theorem replaced_all_false (e : PyStr) (h : e.all chAllowed = false) :
    (pyReplace "true".data "True".data
      (pyReplace "false".data "False".data e)).all chAllowed = false := by
  unfold pyReplace
  have h1 := pyReplaceAux_all_false "false".data "False".data (by decide) e h
  exact pyReplaceAux_all_false "true".data "True".data (by decide) _ h1

/-- On a whitelist-passing input, `calculate` is the evaluator's answer
formatted; the replacement step has already been shown to vanish. -/
theorem calculateWith_of_all (ev : PyStr → Except PyStr PyStr) (e : PyStr)
    (h : e.all chAllowed = true) :
    calculateWith ev e =
      match ev e with
      | Except.ok result => "Result: ".data ++ e ++ " = ".data ++ result
      | Except.error m => "Error calculating '".data ++ e ++ "': ".data ++ m := by
  unfold calculateWith
  rw [replaced_eq_self e h]
  simp [h]

/-! ## The claims -/

/-- C1: any input containing a character outside the whitelist
`0123456789+-*/()., ` makes `calculate` return the fixed rejection
string, and the evaluator is never reached: the result is the same for
every evaluator. -/
theorem calculate_whitelist_rejection (ev ev' : PyStr → Except PyStr PyStr) (e : PyStr)
    (h : e.all chAllowed = false) :
    calculateWith ev e = "Error: Only basic math operations are allowed".data ∧
    calculateWith ev e = calculateWith ev' e := by
  have key : ∀ f : PyStr → Except PyStr PyStr,
      calculateWith f e = "Error: Only basic math operations are allowed".data := by
    intro f
    unfold calculateWith
    simp [replaced_all_false e h]
  exact ⟨key ev, (key ev).trans (key ev').symm⟩

/-- Witness for C1 at the concrete input `"import os"`. -/
theorem calculate_whitelist_rejection_witness :
    calculateWith pyEval "import os".data =
      "Error: Only basic math operations are allowed".data ∧
    calculateWith pyEval "import os".data =
      calculateWith (fun _ => Except.ok []) "import os".data :=
  calculate_whitelist_rejection pyEval (fun _ => Except.ok []) "import os".data (by decide)

/-- C2: whenever the evaluator raises (returns an error), `calculate`
catches it and returns the formatted error string
`Error calculating '<expression>': <message>` instead of propagating. -/
theorem calculate_catches_eval_errors (ev : PyStr → Except PyStr PyStr) (e msg : PyStr)
    (hall : e.all chAllowed = true) (herr : ev e = Except.error msg) :
    calculateWith ev e = "Error calculating '".data ++ e ++ "': ".data ++ msg := by
  rw [calculateWith_of_all ev e hall, herr]

/-- Witness for C2 at the malformed input `"2 +"`. -/
theorem calculate_catches_eval_errors_witness :
    calculateWith pyEval "2 +".data =
      "Error calculating '".data ++ "2 +".data ++ "': ".data ++ "invalid syntax".data :=
  calculate_catches_eval_errors pyEval "2 +".data "invalid syntax".data (by decide) (by rfl)

/-- C3: `calculate "2 + 2"` returns exactly `"Result: 2 + 2 = 4"`, and
in general a whitelist-passing expression that evaluates successfully
yields `Result: <expression> = <value>`. -/
theorem calculate_result_format :
    calculate "2 + 2".data = "Result: 2 + 2 = 4".data ∧
    ∀ (ev : PyStr → Except PyStr PyStr) (e v : PyStr),
      e.all chAllowed = true → ev e = Except.ok v →
      calculateWith ev e = "Result: ".data ++ e ++ " = ".data ++ v := by
  constructor
  · decide
  · intro ev e v hall hok
    rw [calculateWith_of_all ev e hall, hok]

/-- Witness for C3's general part at the concrete input `"(1+2)*3"`. -/
theorem calculate_result_format_witness :
    calculateWith pyEval "(1+2)*3".data =
      "Result: ".data ++ "(1+2)*3".data ++ " = ".data ++ "9".data :=
  calculate_result_format.2 pyEval "(1+2)*3".data "9".data (by decide) (by rfl)

/-- C4: the `false`/`true` literal-replacement step never changes the
result: `calculate` agrees extensionally with the variant that omits
the replacement, for every evaluator and every input. -/
theorem calculate_replace_step_noop (ev : PyStr → Except PyStr PyStr) (e : PyStr) :
    calculateWith ev e = calculateNoReplaceWith ev e := by
  cases hall : e.all chAllowed with
  | true =>
    rw [calculateWith_of_all ev e hall]
    unfold calculateNoReplaceWith
    simp [hall]
  | false =>
    have h1 : calculateWith ev e = "Error: Only basic math operations are allowed".data := by
      unfold calculateWith
      simp [replaced_all_false e hall]
    have h2 : calculateNoReplaceWith ev e =
        "Error: Only basic math operations are allowed".data := by
      unfold calculateNoReplaceWith
      simp [hall]
    rw [h1, h2]

/-- C5: `echo_message` returns exactly `"Echo: "` concatenated with the
input message, for every input. -/
theorem echo_message_spec :
    ∀ message : PyStr, echo_message message = "Echo: ".data ++ message :=
  fun _ => rfl

/-- C6: the two greeting tools take no input and return their fixed
constant strings on every invocation. -/
theorem greeting_tools_fixed :
    (∀ u : Unit, hello_world u =
      "Hello! This is a test message from your Google ADK agent. The setup is working correctly!".data) ∧
    (∀ u : Unit, greet u =
      "Hello! I'm a test agent. How can I help you today?".data) :=
  ⟨fun _ => rfl, fun _ => rfl⟩

/-- C7: for every host environment, `get_system_info` returns a flat
mapping whose keys are exactly `python_version`, `platform`,
`architecture`, `processor`, `agent_status`, with all values except
`agent_status` taken from the host environment; the tool is total. -/
theorem get_system_info_spec (env : HostEnv) :
    ((get_system_info env).map Prod.fst =
      ["python_version".data, "platform".data, "architecture".data,
       "processor".data, "agent_status".data]) ∧
    (get_system_info env).lookup "python_version".data = some (PyVal.str env.python_version) ∧
    (get_system_info env).lookup "platform".data = some (PyVal.str env.host_platform) ∧
    (get_system_info env).lookup "architecture".data =
      some (PyVal.pair env.arch_bits env.arch_linkage) ∧
    (get_system_info env).lookup "processor".data = some (PyVal.str env.processor) ∧
    (get_system_info env).lookup "agent_status".data = some (PyVal.str "running".data) :=
  ⟨rfl, rfl, rfl, rfl, rfl, rfl⟩

/-- C8: the key `agent_status` is bound to the constant `"running"` in
every invocation, whatever the host environment. -/
theorem agent_status_always_running (env : HostEnv) :
    (get_system_info env).lookup "agent_status".data = some (PyVal.str "running".data) :=
  rfl

/-- C9: every registered tool returns a string or a simple mapping:
`hello_world`, `calculate`, `echo_message` and `greet` return strings,
and `get_system_info` returns a mapping, on every input. -/
theorem tools_return_str_or_map :
    (∀ (s : Store) (u : Unit), (helloWorldStep s u).1.isStr = true) ∧
    (∀ (env : HostEnv) (s : Store) (u : Unit), (getSystemInfoStep env s u).1.isMap = true) ∧
    (∀ (ev : PyStr → Except PyStr PyStr) (s : Store) (e : PyStr),
      (calculateStep ev s e).1.isStr = true) ∧
    (∀ (s : Store) (m : PyStr), (echoMessageStep s m).1.isStr = true) ∧
    (∀ (s : Store) (u : Unit), (greetStep s u).1.isStr = true) :=
  ⟨fun _ _ => rfl, fun _ _ _ => rfl, fun _ _ _ => rfl, fun _ _ => rfl, fun _ _ => rfl⟩

/-- C10: every tool invocation is stateless and deterministic: the
result depends only on the tool's own arguments (and the host
environment for `get_system_info`), never on the shared store, and the
shared store is returned unchanged by every invocation. -/
theorem tools_stateless_deterministic :
    (∀ (s s' : Store) (u : Unit),
      (helloWorldStep s u).1 = (helloWorldStep s' u).1 ∧ (helloWorldStep s u).2 = s) ∧
    (∀ (env : HostEnv) (s s' : Store) (u : Unit),
      (getSystemInfoStep env s u).1 = (getSystemInfoStep env s' u).1 ∧
      (getSystemInfoStep env s u).2 = s) ∧
    (∀ (ev : PyStr → Except PyStr PyStr) (s s' : Store) (e : PyStr),
      (calculateStep ev s e).1 = (calculateStep ev s' e).1 ∧
      (calculateStep ev s e).2 = s) ∧
    (∀ (s s' : Store) (m : PyStr),
      (echoMessageStep s m).1 = (echoMessageStep s' m).1 ∧ (echoMessageStep s m).2 = s) ∧
    (∀ (s s' : Store) (u : Unit),
      (greetStep s u).1 = (greetStep s' u).1 ∧ (greetStep s u).2 = s) :=
  ⟨fun _ _ _ => ⟨rfl, rfl⟩, fun _ _ _ _ => ⟨rfl, rfl⟩, fun _ _ _ _ => ⟨rfl, rfl⟩,
   fun _ _ _ => ⟨rfl, rfl⟩, fun _ _ _ => ⟨rfl, rfl⟩⟩

end TestAgent

